import Mathlib

/-!
Shallow embedding of the Detect_WARN tracking-and-risk pipeline
(`src/vision/src/object_tracker.cpp`: classes `ObjectTracker` and
`BehaviorAnalyzer`, data structures from `data_structs.hpp`).

Numeric conventions: C++ `float` values are embedded as `ℚ` (the claims are
about the algorithms' arithmetic, not float rounding), C++ `int` as `ℤ`,
`uint64_t` timestamps as `ℕ`.  The two transcendental library calls,
`cv::norm` (Euclidean norm) and `std::atan2` (converted to degrees), do not
take rational values in general; where the code only compares a norm against
a nonnegative constant the embedding compares the squared norm against the
squared constant (an exact order-isomorphic translation), and the
degrees-valued atan2 is abstracted as a function parameter `atan2d`, so that
every theorem quantifying over `atan2d` holds in particular for the real
`std::atan2(y, x) * 180 / π`.  Logging calls (`LOG_*`) are output-only and
have no effect on the computed state; they are omitted.
-/

namespace DetectWarn

/-- Embeds `cv::Point2f`: a 2-D point with rational coordinates. -/
structure Pt where
  x : ℚ
  y : ℚ
deriving DecidableEq

instance : Add Pt := ⟨fun a b => ⟨a.x + b.x, a.y + b.y⟩⟩
instance : Sub Pt := ⟨fun a b => ⟨a.x - b.x, a.y - b.y⟩⟩

@[simp] theorem Pt.add_def (a b : Pt) : a + b = ⟨a.x + b.x, a.y + b.y⟩ := rfl

@[simp] theorem Pt.sub_def (a b : Pt) : a - b = ⟨a.x - b.x, a.y - b.y⟩ := rfl

/-- Embeds `cv::Rect2f`: an axis-aligned box `(x, y, width, height)`. -/
structure Rect where
  x : ℚ
  y : ℚ
  width : ℚ
  height : ℚ
deriving DecidableEq

/-- Squared Euclidean norm of a point.  The code's `cv::norm(p) > c`
comparisons (with `c ≥ 0`) are embedded as `c * c < normSq p`, which is
equivalent because both sides of the original comparison are nonnegative. -/
def normSq (p : Pt) : ℚ :=
  p.x * p.x + p.y * p.y

/-- Embeds `ObjectTracker::calculateIOU` (object_tracker.cpp:283-299):
intersection-over-union of two boxes; `0` when they do not overlap. -/
def calculateIOU (box1 box2 : Rect) : ℚ :=
  let x1 := max box1.x box2.x
  let y1 := max box1.y box2.y
  let x2 := min (box1.x + box1.width) (box2.x + box2.width)
  let y2 := min (box1.y + box1.height) (box2.y + box2.height)
  if x2 ≤ x1 ∨ y2 ≤ y1 then 0
  else
    let intersection := (x2 - x1) * (y2 - y1)
    let area1 := box1.width * box1.height
    let area2 := box2.width * box2.height
    let union_area := area1 + area2 - intersection
    intersection / union_area

theorem calculateIOU_comm (a b : Rect) : calculateIOU a b = calculateIOU b a := by
  simp only [calculateIOU]
  rw [max_comm a.x b.x, max_comm a.y b.y, min_comm (a.x + a.width) (b.x + b.width),
    min_comm (a.y + a.height) (b.y + b.height),
    add_comm (a.width * a.height) (b.width * b.height)]

theorem calculateIOU_nonneg_le_one (a b : Rect) :
    0 ≤ calculateIOU a b ∧ calculateIOU a b ≤ 1 := by
  simp only [calculateIOU]
  split
  · exact ⟨le_refl 0, zero_le_one⟩
  · rename_i h
    push_neg at h
    obtain ⟨hx, hy⟩ := h
    set x1 := max a.x b.x with hx1
    set y1 := max a.y b.y with hy1
    set x2 := min (a.x + a.width) (b.x + b.width) with hx2
    set y2 := min (a.y + a.height) (b.y + b.height) with hy2
    have hxw : x2 - x1 ≤ a.width := by
      have h1 : a.x ≤ x1 := le_max_left _ _
      have h2 : x2 ≤ a.x + a.width := min_le_left _ _
      linarith
    have hyh : y2 - y1 ≤ a.height := by
      have h1 : a.y ≤ y1 := le_max_left _ _
      have h2 : y2 ≤ a.y + a.height := min_le_left _ _
      linarith
    have hxw' : x2 - x1 ≤ b.width := by
      have h1 : b.x ≤ x1 := le_max_right _ _
      have h2 : x2 ≤ b.x + b.width := min_le_right _ _
      linarith
    have hyh' : y2 - y1 ≤ b.height := by
      have h1 : b.y ≤ y1 := le_max_right _ _
      have h2 : y2 ≤ b.y + b.height := min_le_right _ _
      linarith
    have hxpos : 0 < x2 - x1 := by linarith
    have hypos : 0 < y2 - y1 := by linarith
    have hipos : 0 < (x2 - x1) * (y2 - y1) := mul_pos hxpos hypos
    have hia : (x2 - x1) * (y2 - y1) ≤ a.width * a.height :=
      mul_le_mul hxw hyh (le_of_lt hypos) (by linarith)
    have hib : (x2 - x1) * (y2 - y1) ≤ b.width * b.height :=
      mul_le_mul hxw' hyh' (le_of_lt hypos) (by linarith)
    have hupos : 0 < a.width * a.height + b.width * b.height - (x2 - x1) * (y2 - y1) := by
      linarith
    constructor
    · exact div_nonneg (le_of_lt hipos) (le_of_lt hupos)
    · rw [div_le_one hupos]
      linarith

theorem calculateIOU_self (a : Rect) (hw : 0 < a.width) (hh : 0 < a.height) :
    calculateIOU a a = 1 := by
  simp only [calculateIOU, max_self, min_self]
  have hc : ¬(a.x + a.width ≤ a.x ∨ a.y + a.height ≤ a.y) := by
    push_neg
    constructor <;> linarith
  rw [if_neg hc]
  have hxx : a.x + a.width - a.x = a.width := by ring
  have hyy : a.y + a.height - a.y = a.height := by ring
  rw [hxx, hyy]
  have hcancel : a.width * a.height + a.width * a.height - a.width * a.height =
      a.width * a.height := by ring
  rw [hcancel]
  exact div_self (ne_of_gt (mul_pos hw hh))

/-- C2: for all axis-aligned boxes A and B, `IOU(A,B) = IOU(B,A)` and
`IOU(A,B) ∈ [0,1]`; and `IOU(A,A) = 1` for every box with positive width and
height. -/
theorem iou_symm_range_self (a b : Rect) :
    calculateIOU a b = calculateIOU b a ∧
    (0 ≤ calculateIOU a b ∧ calculateIOU a b ≤ 1) ∧
    (0 < a.width → 0 < a.height → calculateIOU a a = 1) :=
  ⟨calculateIOU_comm a b, calculateIOU_nonneg_le_one a b,
    fun hw hh => calculateIOU_self a hw hh⟩

/-- Closed witness for C2 at the concrete boxes `(0,0,2,2)` and `(1,1,2,2)`:
`IOU` of the first box with itself is 1. -/
theorem iou_symm_range_self_witness :
    calculateIOU ⟨0, 0, 2, 2⟩ ⟨1, 1, 2, 2⟩ = calculateIOU ⟨1, 1, 2, 2⟩ ⟨0, 0, 2, 2⟩ ∧
    calculateIOU ⟨0, 0, 2, 2⟩ ⟨0, 0, 2, 2⟩ = 1 :=
  ⟨(iou_symm_range_self ⟨0, 0, 2, 2⟩ ⟨1, 1, 2, 2⟩).1,
    (iou_symm_range_self ⟨0, 0, 2, 2⟩ ⟨1, 1, 2, 2⟩).2.2 (by decide) (by decide)⟩

/-! ## Data model (`data_structs.hpp`) -/

/-- Embeds `enum class ObjectClass` (data_structs.hpp). -/
inductive ObjectClass where
  | UNKNOWN
  | PEDESTRIAN
  | CYCLIST
  | MOTORCYCLIST
  | BICYCLE
  | MOTORCYCLE
  | TRICYCLE
  | ANIMAL
deriving DecidableEq

/-- Embeds `enum class BehaviorType` (data_structs.hpp). -/
inductive BehaviorType where
  | PEDESTRIAN_STANDING
  | PEDESTRIAN_WALKING
  | PEDESTRIAN_RUNNING
  | PEDESTRIAN_CROSSING
  | PEDESTRIAN_LOITERING
  | NON_MOTOR_STOPPED
  | NON_MOTOR_MOVING
  | NON_MOTOR_SPEEDING
  | NON_MOTOR_SUDEN_BRAKE
  | NON_MOTOR_SUDEN_TURN
  | NON_MOTOR_REVERSING
  | ANIMAL_STATIONARY
  | ANIMAL_MOVING
  | ANIMAL_ENTERING_ROAD
deriving DecidableEq

/-- Embeds `enum class RiskLevel` (data_structs.hpp): a 5-value ordinal
`SAFE = 0 < LOW = 1 < MEDIUM = 2 < HIGH = 3 < CRITICAL = 4`. -/
inductive RiskLevel where
  | SAFE
  | LOW_RISK
  | MEDIUM_RISK
  | HIGH_RISK
  | CRITICAL_RISK
deriving DecidableEq

/-- The numeric value of each `RiskLevel` enumerator in the source. -/
def RiskLevel.toNat : RiskLevel → ℕ
  | .SAFE => 0
  | .LOW_RISK => 1
  | .MEDIUM_RISK => 2
  | .HIGH_RISK => 3
  | .CRITICAL_RISK => 4

/-- Embeds `struct Detection` (data_structs.hpp): one observation in one
frame.  The serialization helper `toJson` is output-only and omitted. -/
structure Detection where
  id : ℤ
  class_id : ObjectClass
  class_name : String
  confidence : ℚ
  bbox : Rect
  center : Pt
  area : ℚ
  aspect_ratio : ℚ
  timestamp : ℕ
deriving DecidableEq

/-- Embeds `struct TrackedObject` (data_structs.hpp): the per-track state
mutated by the tracker.  `toJson` is output-only and omitted. -/
structure TrackedObject where
  track_id : ℤ
  detection : Detection
  trajectory : List Pt
  velocity : Pt
  speed : ℚ
  acceleration : Pt
  direction : ℚ
  age : ℤ
  consecutive_misses : ℤ
  is_confirmed : Bool
  first_seen : ℕ
  last_updated : ℕ
deriving DecidableEq

/-- Embeds `struct BehaviorAnalysis` (data_structs.hpp). -/
structure BehaviorAnalysis where
  track_id : ℤ
  behavior : BehaviorType
  behavior_name : String
  confidence : ℚ
  risk_level : RiskLevel
  risk_description : String
  location : Pt
  distance_to_vehicle : ℚ
  time_to_collision : ℚ
  timestamp : ℕ
  llm_analysis : String
deriving DecidableEq

/-- The default member initializers of `struct BehaviorAnalysis`
(data_structs.hpp): in particular `risk_level = SAFE` and
`time_to_collision = 0.0f`. -/
def BehaviorAnalysis.init : BehaviorAnalysis :=
  { track_id := -1
    behavior := .PEDESTRIAN_STANDING
    behavior_name := ""
    confidence := 0
    risk_level := .SAFE
    risk_description := ""
    location := ⟨0, 0⟩
    distance_to_vehicle := 0
    time_to_collision := 0
    timestamp := 0
    llm_analysis := "" }

/-- Embeds `SystemConfig::TrackerConfig` (the fields the tracker logic
reads; `type`, `use_appearance` and `reid_model_path` are never consumed by
`ObjectTracker` and are omitted). -/
structure TrackerConfig where
  max_age : ℤ
  min_hits : ℤ
  iou_threshold : ℚ
deriving DecidableEq

/-- The default member initializers of `SystemConfig::TrackerConfig`:
`max_age = 30`, `min_hits = 3`, `iou_threshold = 0.3f`. -/
def TrackerConfig.default : TrackerConfig :=
  { max_age := 30, min_hits := 3, iou_threshold := mkRat 3 10 }

/-- Embeds `SystemConfig::BehaviorConfig` with its default member
initializers' field set. -/
structure BehaviorConfig where
  high_risk_distance : ℚ
  collision_risk_ttc : ℚ
  trajectory_history_length : ℤ
  pedestrian_running_threshold : ℚ
  non_motor_speeding_threshold : ℚ
deriving DecidableEq

/-- The default member initializers of `SystemConfig::BehaviorConfig`. -/
def BehaviorConfig.default : BehaviorConfig :=
  { high_risk_distance := 10
    collision_risk_ttc := 3
    trajectory_history_length := 30
    pedestrian_running_threshold := mkRat 5 2
    non_motor_speeding_threshold := 5 }

/-! ## Tracker (`class ObjectTracker`, object_tracker.cpp:24-305)

The tracker's mutable state is `tracks_` and `next_track_id_` (the member
`track_ages_` is cleared on `initialize`/`reset` but never otherwise read or
written, so it carries no information and is omitted).  The helper functions
below are the private member functions, written as pure state transformers;
`nrm` abstracts `cv::norm` and `atan2d` abstracts
`std::atan2(y, x) * 180 / CV_PI` (see the file header). -/

/-- The tracker's state: `tracks_`, `next_track_id_` and the configuration
stored by `initialize`. -/
structure TrackerState where
  config : TrackerConfig
  tracks : List TrackedObject
  next_track_id : ℤ
deriving DecidableEq

/-- Embeds `ObjectTracker::initialize` / `reset`: clears the live set and
restarts ID allocation from 1. -/
def initialState (config : TrackerConfig) : TrackerState :=
  { config := config, tracks := [], next_track_id := 1 }

/-- The per-track body of `ObjectTracker::predictTracks`
(object_tracker.cpp:112-127): linear extrapolation of the box when the
trajectory has ≥ 2 points, then `consecutive_misses++`. -/
def predictTrack (track : TrackedObject) : TrackedObject :=
  let track1 :=
    if 2 ≤ track.trajectory.length then
      let last_pos := track.trajectory.getLastD ⟨0, 0⟩
      let predicted_pos := last_pos + track.velocity
      let d := track.detection
      { track with
        detection :=
          { d with
            bbox :=
              { d.bbox with
                x := predicted_pos.x - d.bbox.width / 2
                y := predicted_pos.y - d.bbox.height / 2 }
            center := predicted_pos } }
    else track
  { track1 with consecutive_misses := track1.consecutive_misses + 1 }

/-- Embeds `ObjectTracker::predictTracks`: applies `predictTrack` to every
live track. -/
def predictTracks (tracks : List TrackedObject) : List TrackedObject :=
  tracks.map predictTrack

/-- The inner loop of `ObjectTracker::associateDetections`
(object_tracker.cpp:160-180): for one track row of the IOU matrix, scan the
detections in order and keep the first strict maximum above the running
best, which starts at `iou_threshold`; `-1` means no detection exceeded the
threshold.  Returns `(best_detection, best_iou)`. -/
def bestMatch (row : List ℚ) (detection_matched : List Bool) (thr : ℚ) : ℤ × ℚ :=
  (List.range row.length).foldl
    (fun bd d =>
      if detection_matched.getD d false then bd
      else if bd.2 < row.getD d 0 then ((d : ℤ), row.getD d 0) else bd)
    (-1, thr)

/-- Embeds `ObjectTracker::associateDetections` (object_tracker.cpp:134-190):
greedy bipartite matching on the IOU matrix.  Returns the list of
`(track index, detection index)` matches and the unmatched detection
indices.  (`track_matched[t]` in the source is always false when track `t`
is visited — each track is visited exactly once — so it is not modelled.) -/
def associateDetections (config : TrackerConfig) (tracks : List TrackedObject)
    (detections : List Detection) : List (ℕ × ℕ) × List ℕ :=
  if tracks.length = 0 then
    ([], List.range detections.length)
  else
    let iou_matrix :=
      tracks.map fun t => detections.map fun d => calculateIOU t.detection.bbox d.bbox
    let result :=
      (List.range tracks.length).foldl
        (fun (acc : List (ℕ × ℕ) × List Bool) t =>
          let bm := bestMatch (iou_matrix.getD t []) acc.2 config.iou_threshold
          if bm.1 = -1 then acc
          else (acc.1 ++ [(t, bm.1.toNat)], acc.2.set bm.1.toNat true))
        ([], List.replicate detections.length false)
    (result.1, (List.range detections.length).filter fun d => !(result.2.getD d false))

/-- The per-match body of `ObjectTracker::updateMatchedTracks`
(object_tracker.cpp:194-236): refresh the detection, reset
`consecutive_misses`, bump `age`, extend the (≤ 50 point) trajectory,
recompute velocity/acceleration/speed/direction, and confirm the track once
`age ≥ min_hits`. -/
def applyMatch (config : TrackerConfig) (nrm : Pt → ℚ) (atan2d : ℚ → ℚ → ℚ)
    (track0 : TrackedObject) (detection : Detection) (timestamp : ℕ) : TrackedObject :=
  let track :=
    { track0 with
      detection := detection
      last_updated := timestamp
      consecutive_misses := 0
      age := track0.age + 1 }
  let traj0 := track.trajectory ++ [detection.center]
  let traj := if 50 < traj0.length then traj0.tail else traj0
  let track := { track with trajectory := traj }
  let track :=
    if 2 ≤ traj.length then
      let current_pos := traj.getLastD ⟨0, 0⟩
      let prev_pos := traj.getD (traj.length - 2) ⟨0, 0⟩
      let new_velocity := current_pos - prev_pos
      let track :=
        { track with
          acceleration := new_velocity - track.velocity
          velocity := new_velocity
          speed := nrm new_velocity }
      if mkRat 1 10 < track.speed then
        { track with direction := atan2d new_velocity.y new_velocity.x }
      else track
    else track
  if !track.is_confirmed && config.min_hits ≤ track.age then
    { track with is_confirmed := true }
  else track

/-- Embeds `ObjectTracker::updateMatchedTracks`: applies `applyMatch` at each
matched track index.  (The source indexes `tracks_[t]` and `detections[d]`
directly; the indices produced by `associateDetections` are always in range,
and an out-of-range pair is modelled as a no-op.) -/
def updateMatchedTracks (config : TrackerConfig) (nrm : Pt → ℚ) (atan2d : ℚ → ℚ → ℚ)
    (tracks : List TrackedObject) (ms : List (ℕ × ℕ))
    (detections : List Detection) (timestamp : ℕ) : List TrackedObject :=
  ms.foldl
    (fun ts m =>
      match ts.get? m.1, detections.get? m.2 with
      | some track, some det => ts.set m.1 (applyMatch config nrm atan2d track det timestamp)
      | _, _ => ts)
    tracks

/-- The track constructed for an unmatched detection in
`ObjectTracker::createNewTracks` (object_tracker.cpp:241-259). -/
def newTrack (detection : Detection) (tid : ℤ) (timestamp : ℕ) : TrackedObject :=
  { track_id := tid
    detection := detection
    trajectory := [detection.center]
    velocity := ⟨0, 0⟩
    speed := 0
    acceleration := ⟨0, 0⟩
    direction := 0
    age := 1
    consecutive_misses := 0
    is_confirmed := false
    first_seen := timestamp
    last_updated := timestamp }

/-- The loop body of `ObjectTracker::createNewTracks`: append a new track
carrying the current `next_track_id_`, then increment it. -/
def createNewTracksStep (detections : List Detection) (timestamp : ℕ)
    (acc : List TrackedObject × ℤ) (idx : ℕ) : List TrackedObject × ℤ :=
  match detections.get? idx with
  | some det => (acc.1 ++ [newTrack det acc.2 timestamp], acc.2 + 1)
  | none => acc

/-- Embeds `ObjectTracker::createNewTracks`: spawns one tentative track per
unmatched detection, consuming `next_track_id_++` for each.  Returns the
extended track list and the new `next_track_id_`.  (The source indexes
`detections[detection_idx]` directly; an out-of-range index is modelled as a
no-op.) -/
def createNewTracks (tracks : List TrackedObject) (next_id : ℤ) (unmatched : List ℕ)
    (detections : List Detection) (timestamp : ℕ) : List TrackedObject × ℤ :=
  unmatched.foldl (createNewTracksStep detections timestamp) (tracks, next_id)

/-- Embeds `ObjectTracker::removeExpiredTracks` (object_tracker.cpp:263-275):
erase every track with `consecutive_misses > max_age`. -/
def removeExpiredTracks (config : TrackerConfig) (tracks : List TrackedObject) :
    List TrackedObject :=
  tracks.filter fun t => !decide (config.max_age < t.consecutive_misses)

/-- Embeds `ObjectTracker::update` (object_tracker.cpp:61-86): predict,
associate, update matched, create new, expire, and return the confirmed
tracks.  The first component is the tracker's state after the call, the
second the returned confirmed-track list. -/
def update (nrm : Pt → ℚ) (atan2d : ℚ → ℚ → ℚ) (s : TrackerState)
    (detections : List Detection) (timestamp : ℕ) : TrackerState × List TrackedObject :=
  let predicted := predictTracks s.tracks
  let assoc := associateDetections s.config predicted detections
  let updated := updateMatchedTracks s.config nrm atan2d predicted assoc.1 detections timestamp
  let created := createNewTracks updated s.next_track_id assoc.2 detections timestamp
  let remaining := removeExpiredTracks s.config created.1
  ({ s with tracks := remaining, next_track_id := created.2 },
    remaining.filter fun t => t.is_confirmed)

/-- A sequence of `update()` calls: fold the per-frame inputs
`(detections, timestamp)` through the tracker state. -/
def runUpdates (nrm : Pt → ℚ) (atan2d : ℚ → ℚ → ℚ) (s : TrackerState)
    (inputs : List (List Detection × ℕ)) : TrackerState :=
  inputs.foldl (fun st inp => (update nrm atan2d st inp.1 inp.2).1) s

/-! ## Behavior analyzer (`class BehaviorAnalyzer`, object_tracker.cpp) -/

/-- Embeds `BehaviorAnalyzer::estimateDistance` (object_tracker.cpp:1052-1058):
`clamp(1000 / (bbox.height + 1), 1, 50)` meters. -/
def estimateDistance (bbox : Rect) : ℚ :=
  let bbox_height := bbox.height
  let estimated_distance := 1000 / (bbox_height + 1)
  max 1 (min 50 estimated_distance)

/-- The direction-adjusted approach speed computed inside
`BehaviorAnalyzer::calculateTimeToCollision` (object_tracker.cpp:1072-1082):
the vehicle speed converted km/h → m/s, reduced by `0.1 × speed` for a
rightward-moving target (direction in (−45°, 45°)) and increased by it for a
leftward-moving one (direction beyond ±135°). -/
def approachSpeed (vehicle_speed_kmh : ℚ) (obj : TrackedObject) : ℚ :=
  let relative_speed := vehicle_speed_kmh / (mkRat 18 5)
  if -45 < obj.direction ∧ obj.direction < 45 then
    relative_speed - obj.speed * mkRat 1 10
  else if 135 < obj.direction ∨ obj.direction < -135 then
    relative_speed + obj.speed * mkRat 1 10
  else relative_speed

/-- Embeds `BehaviorAnalyzer::calculateTimeToCollision`
(object_tracker.cpp:1065-1089): `-1` is the no-risk sentinel, returned when
either speed is ≤ 0.1 or the approach speed is not positive; otherwise
`distance / approach_speed`. -/
def calculateTimeToCollision (vehicle_speed_kmh : ℚ) (obj : TrackedObject) : ℚ :=
  if obj.speed ≤ mkRat 1 10 ∨ vehicle_speed_kmh ≤ mkRat 1 10 then -1
  else
    let distance := estimateDistance obj.detection.bbox
    let approach_speed := approachSpeed vehicle_speed_kmh obj
    if approach_speed ≤ 0 then -1
    else distance / approach_speed

/-- Embeds `BehaviorAnalyzer::assessRiskLevel` (object_tracker.cpp:1002-1034):
the ordered cascade distance → TTC → behavior.  (The `obj` parameter of the
source is unused by its body and omitted here.) -/
def assessRiskLevel (config : BehaviorConfig) (analysis : BehaviorAnalysis) : RiskLevel :=
  let distance := analysis.distance_to_vehicle
  let ttc := analysis.time_to_collision
  if distance < 5 then .CRITICAL_RISK
  else if distance < config.high_risk_distance then .HIGH_RISK
  else if distance < config.high_risk_distance * 2 then .MEDIUM_RISK
  else if 0 < ttc ∧ ttc < config.collision_risk_ttc then .HIGH_RISK
  else if 0 < ttc ∧ ttc < config.collision_risk_ttc * 2 then .MEDIUM_RISK
  else
    match analysis.behavior with
    | .PEDESTRIAN_RUNNING | .PEDESTRIAN_CROSSING | .NON_MOTOR_SPEEDING
    | .NON_MOTOR_SUDEN_BRAKE | .NON_MOTOR_SUDEN_TURN | .ANIMAL_ENTERING_ROAD =>
        .MEDIUM_RISK
    | _ => .LOW_RISK

/-- Embeds `BehaviorAnalyzer::getRiskDescription` (object_tracker.cpp:1036-1045). -/
def getRiskDescription (risk : RiskLevel) : String :=
  match risk with
  | .SAFE => "Safe"
  | .LOW_RISK => "Low risk"
  | .MEDIUM_RISK => "Medium risk - attention required"
  | .HIGH_RISK => "High risk - caution advised"
  | .CRITICAL_RISK => "Critical risk - immediate action required"

/-- Embeds `BehaviorAnalyzer::analyzePedestrianBehavior`
(object_tracker.cpp:897-928): speed ladder, then the crossing override when
the trajectory has ≥ 3 points and the net horizontal displacement exceeds
both twice the net vertical displacement and 20 pixels. -/
def analyzePedestrianBehavior (config : BehaviorConfig) (obj : TrackedObject)
    (analysis0 : BehaviorAnalysis) : BehaviorAnalysis :=
  let speed_ms := obj.speed
  let analysis :=
    if speed_ms < mkRat 1 2 then
      { analysis0 with
        behavior := .PEDESTRIAN_STANDING, behavior_name := "standing", confidence := mkRat 9 10 }
    else if speed_ms < config.pedestrian_running_threshold then
      { analysis0 with
        behavior := .PEDESTRIAN_WALKING, behavior_name := "walking", confidence := mkRat 4 5 }
    else
      { analysis0 with
        behavior := .PEDESTRIAN_RUNNING, behavior_name := "running", confidence := mkRat 4 5 }
  if 3 ≤ obj.trajectory.length then
    let movement := obj.trajectory.getLastD ⟨0, 0⟩ - obj.trajectory.headD ⟨0, 0⟩
    let horizontal_movement := |movement.x|
    let vertical_movement := |movement.y|
    if vertical_movement * 2 < horizontal_movement ∧ 20 < horizontal_movement then
      { analysis with
        behavior := .PEDESTRIAN_CROSSING, behavior_name := "crossing", confidence := mkRat 7 10 }
    else analysis
  else analysis

/-- The direction samples of `BehaviorAnalyzer::analyzeNonMotorBehavior`
(object_tracker.cpp:959-964): for `i = 1 … size−1`, the degrees-valued atan2
of the trajectory delta `trajectory[i] − trajectory[i−1]`. -/
def trajectoryDirections (atan2d : ℚ → ℚ → ℚ) (traj : List Pt) : List ℚ :=
  (List.range (traj.length - 1)).map fun k =>
    let movement := traj.getD (k + 1) ⟨0, 0⟩ - traj.getD k ⟨0, 0⟩
    atan2d movement.y movement.x

/-- Embeds `BehaviorAnalyzer::analyzeNonMotorBehavior`
(object_tracker.cpp:930-977): speed ladder, then the sudden-brake override
(trajectory ≥ 3 points and `cv::norm(acceleration) > 5`, embedded as
`25 < normSq`), then the sudden-turn override (trajectory ≥ 5 points and the
absolute difference between the last direction sample and the
third-from-last exceeding 45°). -/
def analyzeNonMotorBehavior (atan2d : ℚ → ℚ → ℚ) (config : BehaviorConfig)
    (obj : TrackedObject) (analysis0 : BehaviorAnalysis) : BehaviorAnalysis :=
  let speed_ms := obj.speed
  let analysis :=
    if speed_ms < mkRat 1 2 then
      { analysis0 with
        behavior := .NON_MOTOR_STOPPED, behavior_name := "stopped", confidence := mkRat 9 10 }
    else if speed_ms < config.non_motor_speeding_threshold then
      { analysis0 with
        behavior := .NON_MOTOR_MOVING, behavior_name := "moving", confidence := mkRat 4 5 }
    else
      { analysis0 with
        behavior := .NON_MOTOR_SPEEDING, behavior_name := "speeding", confidence := mkRat 4 5 }
  let analysis :=
    if 3 ≤ obj.trajectory.length then
      if 25 < normSq obj.acceleration then
        { analysis with
          behavior := .NON_MOTOR_SUDEN_BRAKE, behavior_name := "sudden_brake"
          confidence := mkRat 7 10 }
      else analysis
    else analysis
  if 5 ≤ obj.trajectory.length then
    let directions := trajectoryDirections atan2d obj.trajectory
    if 3 ≤ directions.length then
      let direction_change :=
        |directions.getLastD 0 - directions.getD (directions.length - 3) 0|
      if 45 < direction_change then
        { analysis with
          behavior := .NON_MOTOR_SUDEN_TURN, behavior_name := "sudden_turn"
          confidence := mkRat 3 5 }
      else analysis
    else analysis
  else analysis

/-- Embeds `BehaviorAnalyzer::analyzeAnimalBehavior`
(object_tracker.cpp:979-1000). -/
def analyzeAnimalBehavior (config : BehaviorConfig) (obj : TrackedObject)
    (analysis0 : BehaviorAnalysis) : BehaviorAnalysis :=
  if obj.speed < mkRat 1 2 then
    { analysis0 with
      behavior := .ANIMAL_STATIONARY, behavior_name := "stationary", confidence := mkRat 9 10 }
  else
    let analysis :=
      { analysis0 with
        behavior := .ANIMAL_MOVING, behavior_name := "moving", confidence := mkRat 4 5 }
    if analysis.distance_to_vehicle < config.high_risk_distance then
      { analysis with
        behavior := .ANIMAL_ENTERING_ROAD, behavior_name := "entering_road"
        confidence := mkRat 7 10 }
    else analysis

/-- Embeds `BehaviorAnalyzer::analyzeObject` (object_tracker.cpp:850-889).
Note the source's statement order: `risk_level` (and from it
`risk_description`) is computed BEFORE `time_to_collision` is written into
the analysis, so `assessRiskLevel` reads the default-initialized
`time_to_collision = 0`. -/
def analyzeObject (atan2d : ℚ → ℚ → ℚ) (config : BehaviorConfig)
    (vehicle_speed_kmh : ℚ) (obj : TrackedObject) : BehaviorAnalysis :=
  let analysis0 : BehaviorAnalysis :=
    { BehaviorAnalysis.init with
      track_id := obj.track_id
      location := obj.detection.center
      timestamp := obj.last_updated
      distance_to_vehicle := estimateDistance obj.detection.bbox }
  let analysis :=
    match obj.detection.class_id with
    | .PEDESTRIAN => analyzePedestrianBehavior config obj analysis0
    | .CYCLIST | .MOTORCYCLIST | .BICYCLE | .MOTORCYCLE | .TRICYCLE =>
        analyzeNonMotorBehavior atan2d config obj analysis0
    | .ANIMAL => analyzeAnimalBehavior config obj analysis0
    | _ =>
        { analysis0 with
          behavior := .PEDESTRIAN_STANDING, behavior_name := "unknown", confidence := mkRat 1 2 }
  let analysis := { analysis with risk_level := assessRiskLevel config analysis }
  let analysis := { analysis with risk_description := getRiskDescription analysis.risk_level }
  { analysis with time_to_collision := calculateTimeToCollision vehicle_speed_kmh obj }

/-- Embeds `BehaviorAnalyzer::analyze` (object_tracker.cpp:824-834): one
`BehaviorAnalysis` per tracked object. -/
def analyze (atan2d : ℚ → ℚ → ℚ) (config : BehaviorConfig) (vehicle_speed_kmh : ℚ)
    (tracked_objects : List TrackedObject) : List BehaviorAnalysis :=
  tracked_objects.map (analyzeObject atan2d config vehicle_speed_kmh)

/-- Exact degree values of `std::atan2(y, x) * 180 / π` on axis-aligned and
diagonal vectors, and `0` elsewhere.  The theorems below are quantified over
every `atan2d`, so they hold for the true atan2; this concrete stand-in,
which agrees with the true atan2 wherever a closed witness or
counterexample below evaluates it, lets those closed statements be checked
by `decide`. -/
def atan2degAx (y x : ℚ) : ℚ :=
  if y = 0 then (if 0 ≤ x then 0 else 180)
  else if x = 0 then (if 0 < y then 90 else -90)
  else if y = x then (if 0 < x then 45 else -135)
  else if y = -x then (if 0 < x then -45 else 135)
  else 0

/-! ## Concrete sample inputs used by closed witnesses and counterexamples -/

/-- A pedestrian detection: box `(100, 100, 50, 80)` (the spec's D1). -/
def detD1 : Detection :=
  ⟨1, .PEDESTRIAN, "pedestrian", 1, ⟨100, 100, 50, 80⟩, ⟨125, 140⟩, 4000, 1, 0⟩

/-- A stationary pedestrian track (speed 0). -/
def objStill : TrackedObject :=
  ⟨1, detD1, [⟨125, 140⟩], ⟨0, 0⟩, 0, ⟨0, 0⟩, 0, 1, 0, false, 0, 0⟩

/-- A cyclist detection. -/
def detCyclist : Detection :=
  ⟨2, .CYCLIST, "cyclist", 1, ⟨0, 0, 30, 60⟩, ⟨15, 30⟩, 1800, 1, 0⟩

/-- A cyclist track with a 2-point trajectory and acceleration `(0, 6)`, so
`‖acceleration‖ = 6 > 5` while the trajectory is too short (< 3 points) for
the code's sudden-brake check to run. -/
def objShortBrake : TrackedObject :=
  ⟨2, detCyclist, [⟨0, 0⟩, ⟨1, 0⟩], ⟨1, 0⟩, 1, ⟨0, 6⟩, 0, 3, 0, true, 0, 0⟩

/-- A cyclist track with a 5-point right-angle trajectory: its direction
samples under the true atan2 are `0°, 0°, 90°, 90°`, so the last and the
third-from-last differ by 90° > 45°. -/
def objTurn : TrackedObject :=
  ⟨3, detCyclist, [⟨0, 0⟩, ⟨1, 0⟩, ⟨2, 0⟩, ⟨2, 1⟩, ⟨2, 2⟩], ⟨0, 1⟩, 1, ⟨0, 0⟩, 0,
    5, 0, true, 0, 0⟩

/-- A cyclist track with a 3-point straight trajectory and acceleration
`(6, 0)`: the sudden-brake override applies, the sudden-turn one cannot
(trajectory < 5 points). -/
def objBrake : TrackedObject :=
  ⟨4, detCyclist, [⟨0, 0⟩, ⟨1, 0⟩, ⟨2, 0⟩], ⟨1, 0⟩, 1, ⟨6, 0⟩, 0, 3, 0, true, 0, 0⟩

/-- A walking pedestrian track far from the vehicle: bbox height 39 gives
estimated distance `1000/40 = 25 m ≥ 2 × high_risk_distance (= 20 m)`;
`speed = 1`, `direction = 90°`, so with vehicle speed 36 km/h the computed
TTC is `25 / 10 = 2.5 s`, positive and below `collision_risk_ttc = 3 s`. -/
def objFarTTC : TrackedObject :=
  ⟨5, ⟨5, .PEDESTRIAN, "pedestrian", 1, ⟨0, 0, 30, 39⟩, ⟨15, mkRat 39 2⟩, 1170, 1, 0⟩,
    [⟨15, mkRat 39 2⟩], ⟨0, 1⟩, 1, ⟨0, 0⟩, 90, 5, 0, true, 0, 0⟩

/-- A pedestrian track whose trajectory drifts 30 px horizontally and 5 px
vertically across 3 points (the spec's crossing-override scenario). -/
def objCross : TrackedObject :=
  ⟨6, detD1, [⟨0, 0⟩, ⟨10, 2⟩, ⟨30, 5⟩], ⟨20, 3⟩, 1, ⟨0, 0⟩, 0, 3, 0, true, 0, 0⟩

/-! ## C8 — TTC sentinel -/

/-- C8: `calculateTimeToCollision` returns the no-risk sentinel −1 whenever
the track's speed is ≤ 0.1 or the vehicle's speed is ≤ 0.1 (in particular
when both are zero), regardless of the estimated distance; and it also
returns −1 whenever the direction-adjusted approach speed is not positive. -/
theorem calculateTTC_sentinel (vehicle_speed_kmh : ℚ) (obj : TrackedObject) :
    (obj.speed ≤ mkRat 1 10 ∨ vehicle_speed_kmh ≤ mkRat 1 10 →
      calculateTimeToCollision vehicle_speed_kmh obj = -1) ∧
    (approachSpeed vehicle_speed_kmh obj ≤ 0 →
      calculateTimeToCollision vehicle_speed_kmh obj = -1) := by
  constructor
  · intro h
    simp only [calculateTimeToCollision, if_pos h]
  · intro h
    by_cases hg : obj.speed ≤ mkRat 1 10 ∨ vehicle_speed_kmh ≤ mkRat 1 10
    · simp only [calculateTimeToCollision, if_pos hg]
    · simp only [calculateTimeToCollision, if_neg hg, if_pos h]

/-- Closed witness for C8: a track with speed 0 while the vehicle speed is
also 0 gets the sentinel −1. -/
theorem calculateTTC_sentinel_witness :
    (objStill.speed ≤ mkRat 1 10 ∨ (0 : ℚ) ≤ mkRat 1 10) ∧
    calculateTimeToCollision 0 objStill = -1 :=
  ⟨by decide, (calculateTTC_sentinel 0 objStill).1 (by decide)⟩

/-! ## C7 — pedestrian crossing override -/

/-- C7: for a pedestrian track whose trajectory has ≥ 3 points, if the net
horizontal displacement from the first to the last trajectory point exceeds
both twice the net vertical displacement and 20 pixels, the behavior label
is `PEDESTRIAN_CROSSING` with confidence 0.7, overriding the speed-based
label. -/
theorem pedestrian_crossing_override (atan2d : ℚ → ℚ → ℚ) (config : BehaviorConfig)
    (vehicle_speed_kmh : ℚ) (obj : TrackedObject)
    (hclass : obj.detection.class_id = .PEDESTRIAN)
    (hlen : 3 ≤ obj.trajectory.length)
    (hmove : |(obj.trajectory.getLastD ⟨0, 0⟩ - obj.trajectory.headD ⟨0, 0⟩).y| * 2 <
      |(obj.trajectory.getLastD ⟨0, 0⟩ - obj.trajectory.headD ⟨0, 0⟩).x|)
    (habs : 20 < |(obj.trajectory.getLastD ⟨0, 0⟩ - obj.trajectory.headD ⟨0, 0⟩).x|) :
    (analyzeObject atan2d config vehicle_speed_kmh obj).behavior =
      BehaviorType.PEDESTRIAN_CROSSING ∧
    (analyzeObject atan2d config vehicle_speed_kmh obj).confidence = mkRat 7 10 := by
  simp only [analyzeObject, hclass]
  simp only [analyzePedestrianBehavior, if_pos hlen, if_pos (And.intro hmove habs)]
  exact ⟨by trivial, by trivial⟩

/-- Closed witness for C7: the spec's scenario (net displacement 30 px
horizontal, 5 px vertical over 3 points) yields the Crossing label. -/
theorem pedestrian_crossing_witness :
    objCross.detection.class_id = ObjectClass.PEDESTRIAN ∧
    (analyzeObject atan2degAx BehaviorConfig.default 0 objCross).behavior =
      BehaviorType.PEDESTRIAN_CROSSING := by
  have hm : objCross.trajectory.getLastD ⟨0, 0⟩ - objCross.trajectory.headD ⟨0, 0⟩ =
      (⟨30, 5⟩ : Pt) := by
    show (⟨(30 : ℚ) - 0, (5 : ℚ) - 0⟩ : Pt) = ⟨30, 5⟩
    norm_num
  refine ⟨rfl, (pedestrian_crossing_override atan2degAx BehaviorConfig.default 0 objCross
    rfl (by decide) ?_ ?_).1⟩
  · rw [hm]
    show |(5 : ℚ)| * 2 < |(30 : ℚ)|
    rw [abs_of_nonneg (by norm_num : (0:ℚ) ≤ 5), abs_of_nonneg (by norm_num : (0:ℚ) ≤ 30)]
    norm_num
  · rw [hm]
    show (20 : ℚ) < |(30 : ℚ)|
    rw [abs_of_nonneg (by norm_num : (0:ℚ) ≤ 30)]
    norm_num

/-! ## C10 — the Safe level is never assigned -/

theorem assessRiskLevel_ne_safe (config : BehaviorConfig) (analysis : BehaviorAnalysis) :
    assessRiskLevel config analysis ≠ RiskLevel.SAFE := by
  simp only [assessRiskLevel]
  split
  · simp
  split
  · simp
  split
  · simp
  split
  · simp
  split
  · simp
  split <;> simp

theorem getRiskDescription_ne_safe (risk : RiskLevel) (h : risk ≠ RiskLevel.SAFE) :
    getRiskDescription risk ≠ "Safe" := by
  cases risk
  · exact absurd rfl h
  all_goals decide

/-- C10: every `BehaviorAnalysis` produced by `analyze` carries a risk level
strictly above `SAFE` (so also never the `"Safe"` description string), for
every input list of tracked objects. -/
theorem risk_never_safe (atan2d : ℚ → ℚ → ℚ) (config : BehaviorConfig)
    (vehicle_speed_kmh : ℚ) (tracked_objects : List TrackedObject) :
    ∀ a ∈ analyze atan2d config vehicle_speed_kmh tracked_objects,
      RiskLevel.SAFE.toNat < a.risk_level.toNat ∧ a.risk_description ≠ "Safe" := by
  intro a ha
  simp only [analyze, List.mem_map] at ha
  obtain ⟨obj, -, rfl⟩ := ha
  simp only [analyzeObject]
  constructor
  · have h := assessRiskLevel_ne_safe config
      (match obj.detection.class_id with
        | .PEDESTRIAN =>
            analyzePedestrianBehavior config obj
              { BehaviorAnalysis.init with
                track_id := obj.track_id
                location := obj.detection.center
                timestamp := obj.last_updated
                distance_to_vehicle := estimateDistance obj.detection.bbox }
        | .CYCLIST | .MOTORCYCLIST | .BICYCLE | .MOTORCYCLE | .TRICYCLE =>
            analyzeNonMotorBehavior atan2d config obj
              { BehaviorAnalysis.init with
                track_id := obj.track_id
                location := obj.detection.center
                timestamp := obj.last_updated
                distance_to_vehicle := estimateDistance obj.detection.bbox }
        | .ANIMAL =>
            analyzeAnimalBehavior config obj
              { BehaviorAnalysis.init with
                track_id := obj.track_id
                location := obj.detection.center
                timestamp := obj.last_updated
                distance_to_vehicle := estimateDistance obj.detection.bbox }
        | _ =>
            { BehaviorAnalysis.init with
              track_id := obj.track_id
              location := obj.detection.center
              timestamp := obj.last_updated
              distance_to_vehicle := estimateDistance obj.detection.bbox
              behavior := .PEDESTRIAN_STANDING, behavior_name := "unknown"
              confidence := mkRat 1 2 })
    revert h
    generalize assessRiskLevel config _ = lvl
    intro h
    cases lvl
    · exact absurd rfl h
    all_goals decide
  · apply getRiskDescription_ne_safe
    exact assessRiskLevel_ne_safe config _

/-- Closed witness for C10: the analysis of a concrete stationary pedestrian
is a member of the corresponding `analyze` output and its risk level is
above `SAFE`. -/
theorem risk_never_safe_witness :
    analyzeObject atan2degAx BehaviorConfig.default 0 objStill ∈
      analyze atan2degAx BehaviorConfig.default 0 [objStill] ∧
    RiskLevel.SAFE.toNat <
      (analyzeObject atan2degAx BehaviorConfig.default 0 objStill).risk_level.toNat :=
  ⟨by simp [analyze],
    (risk_never_safe atan2degAx BehaviorConfig.default 0 [objStill]
      (analyzeObject atan2degAx BehaviorConfig.default 0 objStill)
      (by simp [analyze])).1⟩

/-! ## C1 — the TTC cascade rules never fire in the pipeline -/

/-- C1 (divergence witness): `analyzeObject` assigns `risk_level` before it
writes `time_to_collision`, so `assessRiskLevel` always reads the
default-initialized TTC of 0 and the cascade's TTC rules never apply.  At
this concrete input the estimated distance is `25 ≥ 2 × high_risk_distance`
and the output's TTC is `2.5 s`, positive and below
`collision_risk_ttc = 3 s`, yet the assigned risk level is `LOW_RISK`, not
the `HIGH_RISK` the claim requires. -/
theorem ttc_rules_dead_in_pipeline :
    BehaviorConfig.default.high_risk_distance * 2 ≤
      (analyzeObject atan2degAx BehaviorConfig.default 36 objFarTTC).distance_to_vehicle ∧
    0 < (analyzeObject atan2degAx BehaviorConfig.default 36 objFarTTC).time_to_collision ∧
    (analyzeObject atan2degAx BehaviorConfig.default 36 objFarTTC).time_to_collision <
      BehaviorConfig.default.collision_risk_ttc ∧
    (analyzeObject atan2degAx BehaviorConfig.default 36 objFarTTC).risk_level =
      RiskLevel.LOW_RISK := by
  norm_num [analyzeObject, analyzePedestrianBehavior, assessRiskLevel, getRiskDescription,
    calculateTimeToCollision, approachSpeed, estimateDistance, BehaviorAnalysis.init,
    BehaviorConfig.default, objFarTTC, Rat.mkRat_eq_div, min_def, max_def]

/-! ## C6 — non-motor sudden-brake / sudden-turn overrides -/

/-- The non-motor classes dispatched to `analyzeNonMotorBehavior`. -/
def isNonMotorClass (c : ObjectClass) : Prop :=
  c = .CYCLIST ∨ c = .MOTORCYCLIST ∨ c = .BICYCLE ∨ c = .MOTORCYCLE ∨ c = .TRICYCLE

/-- The sudden-turn condition as the code evaluates it: trajectory of ≥ 5
points, ≥ 3 direction samples, and the last sample differing from the
third-from-last by more than 45°. -/
def suddenTurnCond (atan2d : ℚ → ℚ → ℚ) (obj : TrackedObject) : Prop :=
  5 ≤ obj.trajectory.length ∧
  3 ≤ (trajectoryDirections atan2d obj.trajectory).length ∧
  45 < |(trajectoryDirections atan2d obj.trajectory).getLastD 0 -
    (trajectoryDirections atan2d obj.trajectory).getD
      ((trajectoryDirections atan2d obj.trajectory).length - 3) 0|

instance (atan2d : ℚ → ℚ → ℚ) (obj : TrackedObject) :
    Decidable (suddenTurnCond atan2d obj) := by
  unfold suddenTurnCond
  infer_instance

theorem analyzeNonMotor_brake (atan2d : ℚ → ℚ → ℚ) (config : BehaviorConfig)
    (obj : TrackedObject) (analysis0 : BehaviorAnalysis)
    (h3 : 3 ≤ obj.trajectory.length) (hacc : 25 < normSq obj.acceleration)
    (hnt : ¬ suddenTurnCond atan2d obj) :
    (analyzeNonMotorBehavior atan2d config obj analysis0).behavior =
      BehaviorType.NON_MOTOR_SUDEN_BRAKE := by
  simp only [analyzeNonMotorBehavior, if_pos h3, if_pos hacc]
  by_cases h5 : 5 ≤ obj.trajectory.length
  · by_cases hL : 3 ≤ (trajectoryDirections atan2d obj.trajectory).length
    · have hch : ¬ 45 < |(trajectoryDirections atan2d obj.trajectory).getLastD 0 -
          (trajectoryDirections atan2d obj.trajectory).getD
            ((trajectoryDirections atan2d obj.trajectory).length - 3) 0| :=
        fun hch => hnt ⟨h5, hL, hch⟩
      simp only [if_pos h5, if_pos hL, if_neg hch]
    · simp only [if_pos h5, if_neg hL]
  · simp only [if_neg h5]

theorem analyzeNonMotor_turn (atan2d : ℚ → ℚ → ℚ) (config : BehaviorConfig)
    (obj : TrackedObject) (analysis0 : BehaviorAnalysis)
    (ht : suddenTurnCond atan2d obj) :
    (analyzeNonMotorBehavior atan2d config obj analysis0).behavior =
      BehaviorType.NON_MOTOR_SUDEN_TURN := by
  obtain ⟨h5, hL, hch⟩ := ht
  simp only [analyzeNonMotorBehavior, if_pos h5, if_pos hL, if_pos hch]

/-- C6 (counterexample to the claim as stated): a cyclist track with
`‖acceleration‖ = 6 > 5` but a 2-point trajectory is NOT labelled
SuddenBrake — the code runs the brake check only when the trajectory has at
least 3 points, a precondition the claim omits. -/
theorem nonmotor_override_counterexample :
    25 < normSq objShortBrake.acceleration ∧
    (analyzeObject atan2degAx BehaviorConfig.default 0 objShortBrake).behavior ≠
      BehaviorType.NON_MOTOR_SUDEN_BRAKE := by
  norm_num [analyzeObject, analyzeNonMotorBehavior, normSq, objShortBrake, detCyclist,
    BehaviorAnalysis.init, BehaviorConfig.default, Rat.mkRat_eq_div]
  decide

/-- C6 (amended): for a non-motor-class track, the label is overridden to
SuddenBrake when the trajectory has ≥ 3 points, `‖acceleration‖ > 5`
(embedded as `25 < normSq`) and the sudden-turn condition does not fire; it
is overridden to SuddenTurn whenever the sudden-turn condition fires
(trajectory ≥ 5 points and the last of the ≥ 3 direction samples differing
from the third-from-last by more than 45°) — the turn check is evaluated
after, and thus wins over, the brake check. -/
theorem nonmotor_override_amended (atan2d : ℚ → ℚ → ℚ) (config : BehaviorConfig)
    (vehicle_speed_kmh : ℚ) (obj : TrackedObject)
    (hclass : isNonMotorClass obj.detection.class_id) :
    (3 ≤ obj.trajectory.length → 25 < normSq obj.acceleration →
      ¬ suddenTurnCond atan2d obj →
      (analyzeObject atan2d config vehicle_speed_kmh obj).behavior =
        BehaviorType.NON_MOTOR_SUDEN_BRAKE) ∧
    (suddenTurnCond atan2d obj →
      (analyzeObject atan2d config vehicle_speed_kmh obj).behavior =
        BehaviorType.NON_MOTOR_SUDEN_TURN) := by
  rcases hclass with h | h | h | h | h <;>
    simp only [analyzeObject, h] <;>
    exact ⟨fun h3 hacc hnt => analyzeNonMotor_brake atan2d config obj _ h3 hacc hnt,
      fun ht => analyzeNonMotor_turn atan2d config obj _ ht⟩

/-- Closed witness for C6 (amended): the right-angle 5-point trajectory
track satisfies the sudden-turn condition under the (axis-exact) atan2 and
is labelled SuddenTurn. -/
theorem nonmotor_override_witness :
    suddenTurnCond atan2degAx objTurn ∧
    (analyzeObject atan2degAx BehaviorConfig.default 0 objTurn).behavior =
      BehaviorType.NON_MOTOR_SUDEN_TURN := by
  have hdirs : trajectoryDirections atan2degAx objTurn.trajectory = [0, 0, 90, 90] := by
    show [atan2degAx ((0:ℚ) - 0) ((1:ℚ) - 0), atan2degAx ((0:ℚ) - 0) ((2:ℚ) - 1),
      atan2degAx ((1:ℚ) - 0) ((2:ℚ) - 2), atan2degAx ((2:ℚ) - 1) ((2:ℚ) - 2)] = [0, 0, 90, 90]
    norm_num [atan2degAx]
  have hcond : suddenTurnCond atan2degAx objTurn := by
    refine ⟨by decide, ?_, ?_⟩
    · rw [hdirs]
      decide
    · rw [hdirs]
      show (45 : ℚ) < |(90 : ℚ) - 0|
      rw [abs_of_nonneg (by norm_num : (0 : ℚ) ≤ 90 - 0)]
      norm_num
  exact ⟨hcond,
    (nonmotor_override_amended atan2degAx BehaviorConfig.default 0 objTurn
      (Or.inl rfl)).2 hcond⟩

/-! ## C9 — first update on a fresh tracker -/

/-- C9: from a freshly initialized tracker with the default configuration
(`min_hits = 3`), a single `update([D1], t=0)` returns an empty
confirmed-track list while the internal live set is exactly one track — the
one built for D1 — with track ID 1, age 1 and `is_confirmed = false`.  The
theorem holds for every norm and atan2 function because the single update
never evaluates them. -/
theorem first_update_single_track (nrm : Pt → ℚ) (atan2d : ℚ → ℚ → ℚ) :
    (update nrm atan2d (initialState TrackerConfig.default) [detD1] 0).2 = [] ∧
    (update nrm atan2d (initialState TrackerConfig.default) [detD1] 0).1.tracks =
      [newTrack detD1 1 0] ∧
    (newTrack detD1 1 0).track_id = 1 ∧
    (newTrack detD1 1 0).age = 1 ∧
    (newTrack detD1 1 0).is_confirmed = false :=
  ⟨rfl, rfl, rfl, rfl, rfl⟩

/-! ## C3 — track IDs are fresh and strictly increasing

`createdIds` is the ghost record of the IDs handed out by one
`createNewTracks` call: it folds over the same unmatched-detection list with
the same in-range test and collects the value of `next_track_id_` at each
`next_track_id_++`. -/

/-- One step of the ghost fold: mirrors `createNewTracksStep`, recording the
consumed ID instead of the constructed track. -/
def createdIdsStep (detections : List Detection) (acc : ℤ × List ℤ) (idx : ℕ) :
    ℤ × List ℤ :=
  match detections.get? idx with
  | some _ => (acc.1 + 1, acc.2 ++ [acc.1])
  | none => acc

/-- The IDs assigned by one `createNewTracks` call, in creation order. -/
def createdIds (next_id : ℤ) (unmatched : List ℕ) (detections : List Detection) :
    List ℤ :=
  (unmatched.foldl (createdIdsStep detections) (next_id, [])).2

/-- All track IDs assigned to newly created tracks across a sequence of
`update()` calls, in creation order. -/
def assignedIds (nrm : Pt → ℚ) (atan2d : ℚ → ℚ → ℚ) :
    TrackerState → List (List Detection × ℕ) → List ℤ
  | _, [] => []
  | s, inp :: rest =>
      createdIds s.next_track_id
        (associateDetections s.config (predictTracks s.tracks) inp.1).2 inp.1 ++
      assignedIds nrm atan2d (update nrm atan2d s inp.1 inp.2).1 rest

/-- The ghost fold and the real `createNewTracks` fold keep their ID
components in lockstep. -/
theorem createNewTracks_next_eq_ghost (detections : List Detection) (timestamp : ℕ) :
    ∀ (unmatched : List ℕ) (acc : List TrackedObject × ℤ) (acc2 : ℤ × List ℤ),
      acc.2 = acc2.1 →
      (unmatched.foldl (createNewTracksStep detections timestamp) acc).2 =
        (unmatched.foldl (createdIdsStep detections) acc2).1 := by
  intro unmatched
  induction unmatched with
  | nil => intro acc acc2 h; simpa using h
  | cons idx rest ih =>
      intro acc acc2 h
      simp only [List.foldl_cons]
      apply ih
      simp only [createNewTracksStep, createdIdsStep]
      cases detections.get? idx with
      | none => exact h
      | some det => simp [h]

/-- The tracks built by `createNewTracks` carry exactly the ghost-recorded
IDs, appended in creation order to the existing IDs. -/
theorem createNewTracks_ids_eq_ghost (detections : List Detection) (timestamp : ℕ) :
    ∀ (unmatched : List ℕ) (tracks : List TrackedObject) (next_id : ℤ),
      ((createNewTracks tracks next_id unmatched detections timestamp).1).map
          TrackedObject.track_id =
        tracks.map TrackedObject.track_id ++ createdIds next_id unmatched detections := by
  intro unmatched
  have key : ∀ (u : List ℕ) (pfx : List ℤ) (acc : List TrackedObject × ℤ)
      (acc2 : ℤ × List ℤ),
      acc.2 = acc2.1 →
      acc.1.map TrackedObject.track_id = pfx ++ acc2.2 →
      ((u.foldl (createNewTracksStep detections timestamp) acc).1).map
          TrackedObject.track_id =
        pfx ++ (u.foldl (createdIdsStep detections) acc2).2 := by
    intro u
    induction u with
    | nil => intro pfx acc acc2 _ h2; simpa using h2
    | cons idx rest ih =>
        intro pfx acc acc2 h1 h2
        simp only [List.foldl_cons]
        apply ih
        · simp only [createNewTracksStep, createdIdsStep]
          cases detections.get? idx with
          | none => exact h1
          | some det => simp [h1]
        · simp only [createNewTracksStep, createdIdsStep]
          cases detections.get? idx with
          | none => exact h2
          | some det => simp [newTrack, h1, h2]
  intro tracks next_id
  exact key unmatched (tracks.map TrackedObject.track_id) (tracks, next_id)
    (next_id, []) rfl (by simp)

/-- Strictly-sorted lists concatenate to a strictly-sorted list when every
element of the first is below every element of the second
(`List.Sorted` unfolds to `List.Pairwise`). -/
theorem sorted_lt_append {l1 l2 : List ℤ} (h1 : l1.Sorted (· < ·))
    (h2 : l2.Sorted (· < ·)) (h : ∀ a ∈ l1, ∀ b ∈ l2, a < b) :
    (l1 ++ l2).Sorted (· < ·) :=
  List.pairwise_append.2 ⟨h1, h2, h⟩

/-- Shape of one ghost fold: starting from `(n, l)` with `l` sorted below
`n`, the result is sorted, bounded by the final counter, and the counter
never decreases; every recorded ID is either old or at least `n`. -/
theorem createdIds_fold_spec (detections : List Detection) :
    ∀ (unmatched : List ℕ) (n : ℤ) (l : List ℤ),
      l.Sorted (· < ·) → (∀ x ∈ l, x < n) →
      (((unmatched.foldl (createdIdsStep detections) (n, l)).2).Sorted (· < ·) ∧
        (∀ x ∈ (unmatched.foldl (createdIdsStep detections) (n, l)).2,
          x < (unmatched.foldl (createdIdsStep detections) (n, l)).1) ∧
        n ≤ (unmatched.foldl (createdIdsStep detections) (n, l)).1 ∧
        (∀ x ∈ (unmatched.foldl (createdIdsStep detections) (n, l)).2,
          x ∈ l ∨ n ≤ x)) := by
  intro unmatched
  induction unmatched with
  | nil =>
      intro n l hs hb
      exact ⟨hs, hb, le_refl n, fun x hx => Or.inl hx⟩
  | cons idx rest ih =>
      intro n l hs hb
      simp only [List.foldl_cons, createdIdsStep]
      cases detections.get? idx with
      | none => exact ih n l hs hb
      | some det =>
          have hs' : (l ++ [n]).Sorted (· < ·) := by
            refine sorted_lt_append hs (List.sorted_singleton n) ?_
            intro x hx y hy
            simp only [List.mem_singleton] at hy
            exact hy ▸ hb x hx
          have hb' : ∀ x ∈ l ++ [n], x < n + 1 := by
            intro x hx
            rcases List.mem_append.1 hx with h | h
            · exact lt_trans (hb x h) (by linarith)
            · simp only [List.mem_singleton] at h
              simp [h]
          obtain ⟨r1, r2, r3, r4⟩ := ih (n + 1) (l ++ [n]) hs' hb'
          refine ⟨r1, r2, by linarith, fun x hx => ?_⟩
          rcases r4 x hx with h | h
          · rcases List.mem_append.1 h with h' | h'
            · exact Or.inl h'
            · simp only [List.mem_singleton] at h'
              exact Or.inr (le_of_eq h'.symm)
          · exact Or.inr (by linarith)

/-- `update` advances `next_track_id_` exactly as the ghost fold does. -/
theorem update_next_track_id (nrm : Pt → ℚ) (atan2d : ℚ → ℚ → ℚ) (s : TrackerState)
    (detections : List Detection) (timestamp : ℕ) :
    (update nrm atan2d s detections timestamp).1.next_track_id =
      ((associateDetections s.config (predictTracks s.tracks) detections).2.foldl
        (createdIdsStep detections) (s.next_track_id, [])).1 :=
  createNewTracks_next_eq_ghost detections timestamp _ _ _ rfl

theorem assignedIds_sorted_aux (nrm : Pt → ℚ) (atan2d : ℚ → ℚ → ℚ) :
    ∀ (inputs : List (List Detection × ℕ)) (s : TrackerState),
      (assignedIds nrm atan2d s inputs).Sorted (· < ·) ∧
      ∀ x ∈ assignedIds nrm atan2d s inputs, s.next_track_id ≤ x := by
  intro inputs
  induction inputs with
  | nil => intro s; exact ⟨List.sorted_nil, fun x hx => absurd hx (List.not_mem_nil x)⟩
  | cons inp rest ih =>
      intro s
      obtain ⟨hs, hb, hn, hr⟩ := createdIds_fold_spec inp.1
        (associateDetections s.config (predictTracks s.tracks) inp.1).2
        s.next_track_id [] List.sorted_nil (by simp)
      obtain ⟨ihs, ihb⟩ := ih (update nrm atan2d s inp.1 inp.2).1
      have hnext := update_next_track_id nrm atan2d s inp.1 inp.2
      constructor
      · show (createdIds _ _ _ ++ assignedIds nrm atan2d _ rest).Sorted (· < ·)
        refine sorted_lt_append hs ihs ?_
        intro x hx y hy
        have h1 := hb x hx
        have h2 := ihb y hy
        rw [hnext] at h2
        exact lt_of_lt_of_le h1 h2
      · intro x hx
        rcases List.mem_append.1 hx with h | h
        · rcases hr x h with h' | h'
          · exact absurd h' (List.not_mem_nil x)
          · exact h'
        · have h2 := ihb x h
          rw [hnext] at h2
          exact le_trans hn h2

/-- C3: across any sequence of `update()` calls on a freshly initialized
tracker, the track IDs assigned to newly created tracks are strictly
increasing in creation order, and hence pairwise distinct. -/
theorem track_ids_strictly_increasing (nrm : Pt → ℚ) (atan2d : ℚ → ℚ → ℚ)
    (config : TrackerConfig) (inputs : List (List Detection × ℕ)) :
    (assignedIds nrm atan2d (initialState config) inputs).Sorted (· < ·) ∧
    (assignedIds nrm atan2d (initialState config) inputs).Nodup :=
  ⟨(assignedIds_sorted_aux nrm atan2d inputs (initialState config)).1,
    ((assignedIds_sorted_aux nrm atan2d inputs (initialState config)).1).nodup⟩

/-! ## C4 — `is_confirmed` is never reset on a live track -/

theorem predictTrack_track_id (t : TrackedObject) :
    (predictTrack t).track_id = t.track_id := by
  simp only [predictTrack]
  split <;> rfl

theorem predictTrack_is_confirmed (t : TrackedObject) :
    (predictTrack t).is_confirmed = t.is_confirmed := by
  simp only [predictTrack]
  split <;> rfl

theorem predictTrack_misses (t : TrackedObject) :
    (predictTrack t).consecutive_misses = t.consecutive_misses + 1 := by
  simp only [predictTrack]
  split <;> rfl

theorem applyMatch_track_id (config : TrackerConfig) (nrm : Pt → ℚ) (atan2d : ℚ → ℚ → ℚ)
    (t : TrackedObject) (d : Detection) (timestamp : ℕ) :
    (applyMatch config nrm atan2d t d timestamp).track_id = t.track_id := by
  simp only [applyMatch]
  repeat' split
  all_goals rfl

theorem applyMatch_confirmed_mono (config : TrackerConfig) (nrm : Pt → ℚ)
    (atan2d : ℚ → ℚ → ℚ) (t : TrackedObject) (d : Detection) (timestamp : ℕ)
    (h : t.is_confirmed = true) :
    (applyMatch config nrm atan2d t d timestamp).is_confirmed = true := by
  simp only [applyMatch]
  repeat' split
  all_goals first | rfl | exact h

/-- `updateMatchedTracks` preserves any per-track property preserved by
`applyMatch`. -/
theorem updateMatchedTracks_pres (config : TrackerConfig) (nrm : Pt → ℚ)
    (atan2d : ℚ → ℚ → ℚ) (detections : List Detection) (timestamp : ℕ)
    (P : TrackedObject → Prop)
    (hP : ∀ t d, P t → P (applyMatch config nrm atan2d t d timestamp)) :
    ∀ (ms : List (ℕ × ℕ)) (ts : List TrackedObject),
      (∀ t ∈ ts, P t) →
      ∀ t ∈ updateMatchedTracks config nrm atan2d ts ms detections timestamp, P t := by
  intro ms
  induction ms with
  | nil => intro ts h t ht; exact h t ht
  | cons m rest ih =>
      intro ts h
      have hstep : ∀ t ∈ (match ts.get? m.1, detections.get? m.2 with
          | some track, some det =>
              ts.set m.1 (applyMatch config nrm atan2d track det timestamp)
          | _, _ => ts), P t := by
        cases hg : ts.get? m.1 with
        | none => cases detections.get? m.2 <;> exact h
        | some track =>
            cases hd : detections.get? m.2 with
            | none => exact h
            | some det =>
                intro t ht
                rcases List.mem_or_eq_of_mem_set ht with h' | h'
                · exact h t h'
                · exact h' ▸ hP track det (h track (List.get?_mem hg))
      exact ih _ hstep

/-- `createNewTracks` preserves any property holding of the existing tracks
and of every track freshly built with an ID at or above `next_id`. -/
theorem createNewTracks_forall (detections : List Detection) (timestamp : ℕ)
    (P : TrackedObject → Prop) :
    ∀ (unmatched : List ℕ) (tracks : List TrackedObject) (next_id : ℤ),
      (∀ t ∈ tracks, P t) →
      (∀ (det : Detection) (tid : ℤ), next_id ≤ tid → P (newTrack det tid timestamp)) →
      ∀ t ∈ (createNewTracks tracks next_id unmatched detections timestamp).1, P t := by
  intro unmatched
  induction unmatched with
  | nil => intro tracks next_id h _ t ht; exact h t ht
  | cons idx rest ih =>
      intro tracks next_id h hnew
      show ∀ t ∈ (List.foldl _ (createNewTracksStep detections timestamp (tracks, next_id) idx)
        rest).1, P t
      simp only [createNewTracksStep]
      cases detections.get? idx with
      | none => exact ih tracks next_id h hnew
      | some det =>
          apply ih
          · intro t ht
            rcases List.mem_append.1 ht with h' | h'
            · exact h t h'
            · simp only [List.mem_singleton] at h'
              exact h' ▸ hnew det next_id (le_refl _)
          · intro det' tid htid
            exact hnew det' tid (by linarith)

theorem createNewTracks_next_le (detections : List Detection) (timestamp : ℕ) :
    ∀ (unmatched : List ℕ) (tracks : List TrackedObject) (next_id : ℤ),
      next_id ≤ (createNewTracks tracks next_id unmatched detections timestamp).2 := by
  intro unmatched
  induction unmatched with
  | nil => intro _ _; exact le_refl _
  | cons idx rest ih =>
      intro tracks next_id
      show next_id ≤ (List.foldl _
        (createNewTracksStep detections timestamp (tracks, next_id) idx) rest).2
      simp only [createNewTracksStep]
      cases detections.get? idx with
      | none => exact ih tracks next_id
      | some det => exact le_trans (by linarith) (ih _ (next_id + 1))

/-- One `update()` preserves "every live track with ID `i` is confirmed"
for any already-allocated ID `i`, and never decreases `next_track_id_`. -/
theorem update_confirmed_step (nrm : Pt → ℚ) (atan2d : ℚ → ℚ → ℚ) (s : TrackerState)
    (dets : List Detection) (ts : ℕ) (i : ℤ)
    (hi : i < s.next_track_id)
    (h : ∀ t ∈ s.tracks, t.track_id = i → t.is_confirmed = true) :
    i < (update nrm atan2d s dets ts).1.next_track_id ∧
    ∀ t ∈ (update nrm atan2d s dets ts).1.tracks,
      t.track_id = i → t.is_confirmed = true := by
  have h1 : ∀ t ∈ predictTracks s.tracks, t.track_id = i → t.is_confirmed = true := by
    intro t ht
    rcases List.mem_map.1 ht with ⟨t0, ht0, rfl⟩
    intro hid
    rw [predictTrack_track_id] at hid
    rw [predictTrack_is_confirmed]
    exact h t0 ht0 hid
  have h2 := updateMatchedTracks_pres s.config nrm atan2d dets ts
    (fun t => t.track_id = i → t.is_confirmed = true)
    (fun t d hPt hid => by
      rw [applyMatch_track_id] at hid
      exact applyMatch_confirmed_mono s.config nrm atan2d t d ts (hPt hid))
    (associateDetections s.config (predictTracks s.tracks) dets).1
    (predictTracks s.tracks) h1
  have h3 := createNewTracks_forall dets ts
    (fun t => t.track_id = i → t.is_confirmed = true)
    (associateDetections s.config (predictTracks s.tracks) dets).2
    (updateMatchedTracks s.config nrm atan2d (predictTracks s.tracks)
      (associateDetections s.config (predictTracks s.tracks) dets).1 dets ts)
    s.next_track_id h2
    (fun det tid htid hid =>
      ((lt_irrefl i) (lt_of_lt_of_le hi (hid ▸ htid))).elim)
  refine ⟨lt_of_lt_of_le hi (createNewTracks_next_le dets ts _ _ _), ?_⟩
  intro t ht
  exact h3 t (List.mem_filter.1 ht).1

/-- C4: once every live track with a given (already-allocated) ID is
confirmed, it stays confirmed across every subsequent sequence of `update()`
calls, for as long as it remains in the live set — no operation resets
`is_confirmed` to false on a live track. -/
theorem confirmed_monotone (nrm : Pt → ℚ) (atan2d : ℚ → ℚ → ℚ)
    (inputs : List (List Detection × ℕ)) :
    ∀ (s : TrackerState) (i : ℤ),
      i < s.next_track_id →
      (∀ t ∈ s.tracks, t.track_id = i → t.is_confirmed = true) →
      ∀ t ∈ (runUpdates nrm atan2d s inputs).tracks,
        t.track_id = i → t.is_confirmed = true := by
  induction inputs with
  | nil => intro s i _ h; exact h
  | cons inp rest ih =>
      intro s i hi h
      obtain ⟨hi', h'⟩ := update_confirmed_step nrm atan2d s inp.1 inp.2 i hi h
      exact ih (update nrm atan2d s inp.1 inp.2).1 i hi' h'

/-- A confirmed pedestrian track used by the tracker witnesses. -/
def objConfirmed : TrackedObject :=
  ⟨1, detD1, [⟨125, 140⟩], ⟨0, 0⟩, 0, ⟨0, 0⟩, 0, 3, 0, true, 0, 0⟩

/-- Closed witness for C4: on a tracker holding one confirmed track with
ID 1, one further (empty-detection) update leaves every live track with ID 1
confirmed. -/
theorem confirmed_monotone_witness :
    ((1 : ℤ) < (⟨TrackerConfig.default, [objConfirmed], 2⟩ : TrackerState).next_track_id ∧
      ∀ t ∈ (⟨TrackerConfig.default, [objConfirmed], 2⟩ : TrackerState).tracks,
        t.track_id = 1 → t.is_confirmed = true) ∧
    ∀ t ∈ (runUpdates (fun _ => 0) atan2degAx
        ⟨TrackerConfig.default, [objConfirmed], 2⟩ [([], 5)]).tracks,
      t.track_id = 1 → t.is_confirmed = true :=
  ⟨⟨by decide, by decide⟩,
    confirmed_monotone (fun _ => 0) atan2degAx [([], 5)]
      ⟨TrackerConfig.default, [objConfirmed], 2⟩ 1 (by decide) (by decide)⟩

/-! ## C5 — expiry after `max_age + 1` unmatched cycles -/

/-- Whether this cycle's greedy association matched some detection to a
(predicted) live track carrying ID `i`. -/
def trackMatchedB (config : TrackerConfig) (tracks : List TrackedObject)
    (detections : List Detection) (i : ℤ) : Bool :=
  (associateDetections config tracks detections).1.any fun p =>
    match tracks.get? p.1 with
    | some t0 => t0.track_id == i
    | none => false

/-- "The track with ID `i` receives zero matching detections" along a whole
input sequence: no cycle's association step matches it. -/
def neverMatchedB (nrm : Pt → ℚ) (atan2d : ℚ → ℚ → ℚ) :
    TrackerState → List (List Detection × ℕ) → ℤ → Bool
  | _, [], _ => true
  | s, inp :: rest, i =>
      !trackMatchedB s.config (predictTracks s.tracks) inp.1 i &&
      neverMatchedB nrm atan2d (update nrm atan2d s inp.1 inp.2).1 rest i

/-- When no match of the cycle points at a track with ID `i`, every track
with ID `i` in the `updateMatchedTracks` result is an untouched element of
the input list. -/
theorem updateMatchedTracks_unmatched (config : TrackerConfig) (nrm : Pt → ℚ)
    (atan2d : ℚ → ℚ → ℚ) (detections : List Detection) (timestamp : ℕ) (i : ℤ) :
    ∀ (ms : List (ℕ × ℕ)) (ts : List TrackedObject),
      (∀ p ∈ ms, ∀ t0, ts.get? p.1 = some t0 → t0.track_id ≠ i) →
      ∀ t ∈ updateMatchedTracks config nrm atan2d ts ms detections timestamp,
        t.track_id = i → t ∈ ts := by
  intro ms
  induction ms with
  | nil => intro ts _ t ht _; exact ht
  | cons m rest ih =>
      intro ts hms
      cases hg : ts.get? m.1 with
      | none =>
          have hstep : updateMatchedTracks config nrm atan2d ts (m :: rest)
              detections timestamp =
              updateMatchedTracks config nrm atan2d ts rest detections timestamp := by
            simp only [updateMatchedTracks, List.foldl_cons, hg]
          rw [hstep]
          exact ih ts fun p hp => hms p (List.mem_cons_of_mem m hp)
      | some track =>
          cases hd : detections.get? m.2 with
          | none =>
              have hstep : updateMatchedTracks config nrm atan2d ts (m :: rest)
                  detections timestamp =
                  updateMatchedTracks config nrm atan2d ts rest detections timestamp := by
                simp only [updateMatchedTracks, List.foldl_cons, hg, hd]
              rw [hstep]
              exact ih ts fun p hp => hms p (List.mem_cons_of_mem m hp)
          | some det =>
              have hlt : m.1 < ts.length := by
                obtain ⟨h, -⟩ := List.get?_eq_some.1 hg
                exact h
              have hidm : track.track_id ≠ i :=
                hms m (List.mem_cons_self m rest) track hg
              have hstep : updateMatchedTracks config nrm atan2d ts (m :: rest)
                  detections timestamp =
                  updateMatchedTracks config nrm atan2d
                    (ts.set m.1 (applyMatch config nrm atan2d track det timestamp))
                    rest detections timestamp := by
                simp only [updateMatchedTracks, List.foldl_cons, hg, hd]
              rw [hstep]
              have hms' : ∀ p ∈ rest, ∀ t0,
                  (ts.set m.1 (applyMatch config nrm atan2d track det timestamp)).get? p.1 =
                    some t0 → t0.track_id ≠ i := by
                intro p hp t0 h0
                by_cases hpm : p.1 = m.1
                · rw [hpm, List.get?_eq_getElem?,
                    List.getElem?_set_self hlt] at h0
                  cases h0
                  rw [applyMatch_track_id]
                  exact hidm
                · rw [List.get?_eq_getElem?,
                    List.getElem?_set_ne (fun h => hpm h.symm), ← List.get?_eq_getElem?] at h0
                  exact hms p (List.mem_cons_of_mem m hp) t0 h0
              intro t ht hid
              have hmem := ih _ hms' t ht hid
              rcases List.mem_or_eq_of_mem_set hmem with h' | h'
              · exact h'
              · rw [h', applyMatch_track_id] at hid
                exact absurd hid hidm

/-- One `update()` in which the track with ID `i` is not matched: every
surviving live track with ID `i` has its consecutive-miss count incremented
past `m` and still within `max_age`; `next_track_id_` does not shrink and
the configuration is untouched. -/
theorem update_unmatched_step (nrm : Pt → ℚ) (atan2d : ℚ → ℚ → ℚ) (s : TrackerState)
    (dets : List Detection) (tstamp : ℕ) (i m : ℤ)
    (hnm : trackMatchedB s.config (predictTracks s.tracks) dets i = false)
    (hi : i < s.next_track_id)
    (hm : ∀ t ∈ s.tracks, t.track_id = i → m ≤ t.consecutive_misses) :
    i < (update nrm atan2d s dets tstamp).1.next_track_id ∧
    (update nrm atan2d s dets tstamp).1.config = s.config ∧
    ∀ t ∈ (update nrm atan2d s dets tstamp).1.tracks, t.track_id = i →
      m + 1 ≤ t.consecutive_misses ∧ t.consecutive_misses ≤ s.config.max_age := by
  have Hm : ∀ p ∈ (associateDetections s.config (predictTracks s.tracks) dets).1,
      ∀ t0, (predictTracks s.tracks).get? p.1 = some t0 → t0.track_id ≠ i := by
    intro p hp t0 h0 heq
    have h1 := List.any_eq_false.1 hnm p hp
    apply h1
    rw [h0]
    simp [heq]
  have hpred : ∀ t ∈ predictTracks s.tracks, t.track_id = i →
      m + 1 ≤ t.consecutive_misses := by
    intro t ht hid
    rcases List.mem_map.1 ht with ⟨t0, ht0, rfl⟩
    rw [predictTrack_track_id] at hid
    rw [predictTrack_misses]
    have := hm t0 ht0 hid
    linarith
  have hupd : ∀ t ∈ updateMatchedTracks s.config nrm atan2d (predictTracks s.tracks)
      (associateDetections s.config (predictTracks s.tracks) dets).1 dets tstamp,
      t.track_id = i → m + 1 ≤ t.consecutive_misses := by
    intro t ht hid
    exact hpred t
      (updateMatchedTracks_unmatched s.config nrm atan2d dets tstamp i _ _ Hm t ht hid)
      hid
  have hcreate := createNewTracks_forall dets tstamp
    (fun t => t.track_id = i → m + 1 ≤ t.consecutive_misses)
    (associateDetections s.config (predictTracks s.tracks) dets).2
    (updateMatchedTracks s.config nrm atan2d (predictTracks s.tracks)
      (associateDetections s.config (predictTracks s.tracks) dets).1 dets tstamp)
    s.next_track_id hupd
    (fun det tid htid hid => ((lt_irrefl i) (lt_of_lt_of_le hi (hid ▸ htid))).elim)
  refine ⟨lt_of_lt_of_le hi (createNewTracks_next_le dets tstamp _ _ _), rfl, ?_⟩
  intro t ht hid
  have hmem := List.mem_filter.1 ht
  refine ⟨hcreate t hmem.1 hid, ?_⟩
  have := hmem.2
  simp only [Bool.not_eq_true', decide_eq_false_iff_not, not_lt] at this
  exact this

theorem expiry_aux (nrm : Pt → ℚ) (atan2d : ℚ → ℚ → ℚ) :
    ∀ (inputs : List (List Detection × ℕ)) (s : TrackerState) (i m : ℤ),
      neverMatchedB nrm atan2d s inputs i = true →
      i < s.next_track_id →
      (∀ t ∈ s.tracks, t.track_id = i → m ≤ t.consecutive_misses) →
      inputs ≠ [] →
      ∀ t ∈ (runUpdates nrm atan2d s inputs).tracks, t.track_id = i →
        m + inputs.length ≤ t.consecutive_misses ∧
        t.consecutive_misses ≤ s.config.max_age := by
  intro inputs
  induction inputs with
  | nil => intro s i m _ _ _ hne; exact absurd rfl hne
  | cons inp rest ih =>
      intro s i m hnm hi hm _
      have hsplit : (!trackMatchedB s.config (predictTracks s.tracks) inp.1 i) = true ∧
          neverMatchedB nrm atan2d (update nrm atan2d s inp.1 inp.2).1 rest i = true :=
        Bool.and_eq_true_iff.1 hnm
      have h1 : trackMatchedB s.config (predictTracks s.tracks) inp.1 i = false := by
        simpa using hsplit.1
      obtain ⟨hi', hcfg, hstep⟩ := update_unmatched_step nrm atan2d s inp.1 inp.2 i m h1 hi hm
      cases rest with
      | nil =>
          intro t ht hid
          have h := hstep t ht hid
          refine ⟨?_, h.2⟩
          have hlen1 : (([inp] : List (List Detection × ℕ)).length : ℤ) = 1 := by simp
          rw [hlen1]
          exact h.1
      | cons r rs =>
          intro t ht hid
          have hrec := ih (update nrm atan2d s inp.1 inp.2).1 i (m + 1) hsplit.2 hi'
            (fun t' ht' hid' => (hstep t' ht' hid').1) (by simp) t ht hid
          constructor
          · have hlen2 : (((inp :: r :: rs) : List (List Detection × ℕ)).length : ℤ) =
                ((r :: rs : List (List Detection × ℕ)).length : ℤ) + 1 := by
              simp
            rw [hlen2]
            have h2 := hrec.1
            linarith
          · exact hcfg ▸ hrec.2

/-- C5: a live track (with already-allocated ID `i` and nonnegative miss
count, as every reachable track has) that receives zero matching detections
over `max_age + 1` consecutive `update()` cycles is absent from the live
set afterward. -/
theorem expiry_guarantee (nrm : Pt → ℚ) (atan2d : ℚ → ℚ → ℚ) (s : TrackerState)
    (inputs : List (List Detection × ℕ)) (i : ℤ)
    (hage : 0 ≤ s.config.max_age)
    (hlen : (inputs.length : ℤ) = s.config.max_age + 1)
    (hnm : neverMatchedB nrm atan2d s inputs i = true)
    (hi : i < s.next_track_id)
    (hm : ∀ t ∈ s.tracks, t.track_id = i → 0 ≤ t.consecutive_misses) :
    ∀ t ∈ (runUpdates nrm atan2d s inputs).tracks, t.track_id ≠ i := by
  intro t ht hid
  have hne : inputs ≠ [] := by
    intro h
    rw [h] at hlen
    simp only [List.length_nil, Nat.cast_zero] at hlen
    linarith
  have h := expiry_aux nrm atan2d inputs s i 0 hnm hi hm hne t ht hid
  have h1 := h.1
  rw [hlen] at h1
  linarith [h.2]

/-- Closed witness for C5: with `max_age = 1`, a track with ID 1 that is
never matched over two empty-detection updates is gone afterwards. -/
theorem expiry_guarantee_witness :
    neverMatchedB (fun _ => 0) atan2degAx ⟨⟨1, 3, mkRat 3 10⟩, [objStill], 2⟩
      [([], 1), ([], 2)] 1 = true ∧
    ∀ t ∈ (runUpdates (fun _ => 0) atan2degAx ⟨⟨1, 3, mkRat 3 10⟩, [objStill], 2⟩
        [([], 1), ([], 2)]).tracks, t.track_id ≠ 1 :=
  ⟨by decide,
    expiry_guarantee (fun _ => 0) atan2degAx ⟨⟨1, 3, mkRat 3 10⟩, [objStill], 2⟩
      [([], 1), ([], 2)] 1 (by decide) (by decide) (by decide) (by decide) (by decide)⟩

end DetectWarn
